import Mathlib

/-!
Verification of the month-grid calendar component
(`src/components/calendar/Calendar.tsx`).

Dates are embedded as day numbers: day `0` is 0001-01-01 of the proleptic
Gregorian calendar, which is a Monday.  A `YMD` structure plays the role of a
JavaScript `Date` value (only its calendar fields matter to the component).
The date-fns helpers used by the component (`startOfMonth`, `endOfMonth`,
`startOfWeek`/`endOfWeek` with `weekStartsOn: 1`, `addDays`, `isSameDay`,
`isSameMonth`, `addMonths`, `subMonths`, `format "yyyy-MM-dd"`) are embedded
over this representation.
-/

namespace Calendar

/-- Calendar date as year / month / day fields, the shallow embedding of a
JavaScript `Date` value (time-of-day is irrelevant to the component). -/
structure YMD where
  year : Nat
  month : Nat
  day : Nat
deriving DecidableEq

/-- Gregorian leap-year rule. -/
def isLeapYear (y : Nat) : Bool :=
  (y % 4 == 0 && y % 100 != 0) || (y % 400 == 0)

/-- Number of days of month `m` of year `y` (months are 1-based). -/
def daysInMonth (y m : Nat) : Nat :=
  if m == 2 then (if isLeapYear y then 29 else 28)
  else if m == 4 || m == 6 || m == 9 || m == 11 then 30
  else 31

/-- Number of days of year `y`. -/
def daysInYear (y : Nat) : Nat :=
  if isLeapYear y then 366 else 365

/-- Total number of days in years `1..y` (closed form: leap years up to `y`
are counted by `y/4 - y/100 + y/400`). -/
def daysUpTo (y : Nat) : Nat :=
  365 * y + y / 4 + y / 400 - y / 100

/-- Total number of days in months `1..m` of year `y`. -/
def monthsUpTo (y : Nat) : Nat → Nat
  | 0 => 0
  | m + 1 => monthsUpTo y m + daysInMonth y (m + 1)

/-- Day number of the date `y-m-d`: days elapsed since 0001-01-01. -/
def fromYMD (y m d : Nat) : Nat :=
  daysUpTo (y - 1) + monthsUpTo y (m - 1) + (d - 1)

/-- Locate the year containing a day offset: starting from year `y` with `n`
days remaining, subtract whole years.  Fuel-based structural recursion. -/
def findYear : Nat → Nat → Nat → Nat × Nat
  | 0, y, n => (y, n)
  | fuel + 1, y, n =>
    if n < daysInYear y then (y, n) else findYear fuel (y + 1) (n - daysInYear y)

/-- Locate the month containing a day offset inside year `y`. -/
def findMonth (y : Nat) : Nat → Nat → Nat → Nat × Nat
  | 0, m, n => (m, n)
  | fuel + 1, m, n =>
    if n < daysInMonth y m then (m, n) else findMonth y fuel (m + 1) (n - daysInMonth y m)

/-- Inverse of `fromYMD`: calendar fields of a day number.  The starting year
guess `n / 366 + 1` never overshoots, so only a few year steps remain. -/
def toYMD (n : Nat) : YMD :=
  let g := n / 366 + 1
  let r0 := n - daysUpTo (g - 1)
  let p := findYear (r0 + 1) g r0
  let q := findMonth p.1 12 1 p.2
  ⟨p.1, q.1, q.2 + 1⟩

/-- A `YMD` value denotes a real calendar date. -/
def ValidDate (dt : YMD) : Prop :=
  1 ≤ dt.year ∧ 1 ≤ dt.month ∧ dt.month ≤ 12 ∧ 1 ≤ dt.day ∧ dt.day ≤ daysInMonth dt.year dt.month

instance (dt : YMD) : Decidable (ValidDate dt) := by
  unfold ValidDate; infer_instance

/-!  date-fns helpers used by `MonthView`, over day numbers / `YMD`. -/

/-- Embedding of date-fns `startOfMonth`, as a day number. -/
def startOfMonth (dt : YMD) : Nat := fromYMD dt.year dt.month 1

/-- Embedding of date-fns `endOfMonth`, as a day number. -/
def endOfMonth (dt : YMD) : Nat := fromYMD dt.year dt.month (daysInMonth dt.year dt.month)

/-- JavaScript `Date.prototype.getDay` convention: 0 = Sunday .. 6 = Saturday.
Day number 0 (0001-01-01, proleptic Gregorian) is a Monday. -/
def getDayOfWeek (n : Nat) : Nat := (n + 1) % 7

/-- date-fns `startOfWeek` with `weekStartsOn: 1`: the Monday on or before. -/
def startOfWeekMon (n : Nat) : Nat := n - (getDayOfWeek n + 6) % 7

/-- date-fns `endOfWeek` with `weekStartsOn: 1`: the Sunday on or after. -/
def endOfWeekMon (n : Nat) : Nat := n + (6 - (getDayOfWeek n + 6) % 7)

/-- Zero-padded two-digit rendering, as in the `"dd"` / `"MM"` format tokens. -/
def pad2 (n : Nat) : String := if n < 10 then "0" ++ toString n else toString n

/-- Zero-padded four-digit rendering, as in the `"yyyy"` format token. -/
def pad4 (n : Nat) : String :=
  if n < 10 then "000" ++ toString n
  else if n < 100 then "00" ++ toString n
  else if n < 1000 then "0" ++ toString n
  else toString n

/-- Embedding of `format(day, DayFormat)` with `DayFormat = "yyyy-MM-dd"`:
the canonical DateKey of a day number. -/
def dateKey (n : Nat) : String :=
  let dt := toYMD n
  pad4 dt.year ++ "-" ++ pad2 dt.month ++ "-" ++ pad2 dt.day

/-- Embedding of date-fns `isSameMonth(day, from)`: same year and month. -/
def isSameMonth (n : Nat) (dt : YMD) : Bool :=
  (toYMD n).year == dt.year && (toYMD n).month == dt.month

/-- date-fns `addMonths(from, 1)`: next calendar month, day-of-month clamped
to the target month's length. -/
def addMonthsOne (dt : YMD) : YMD :=
  let y := if dt.month == 12 then dt.year + 1 else dt.year
  let m := if dt.month == 12 then 1 else dt.month + 1
  ⟨y, m, min dt.day (daysInMonth y m)⟩

/-- date-fns `subMonths(from, 1)`: previous calendar month, day-of-month
clamped to the target month's length. -/
def subMonthsOne (dt : YMD) : YMD :=
  let y := if dt.month == 1 then dt.year - 1 else dt.year
  let m := if dt.month == 1 then 12 else dt.month - 1
  ⟨y, m, min dt.day (daysInMonth y m)⟩

/-!  The `MonthView` component logic (`Calendar.tsx`). -/

/-- One cell of the month grid: the `MonthDay` interface of `Calendar.tsx`. -/
structure MonthDay where
  day : String
  date : String
  today : Bool
  offer : Bool
  order : Bool
  isCurrentMonth : Bool
deriving DecidableEq

/-- The cell the `while` loop pushes for day number `n`:
`day: format(day, "dd")`, `date: format(day, DayFormat)`,
`today: isSameDay(day, new Date())`, `offer/order: includes(...)`,
`isCurrentMonth: isSameMonth(day, from)`. -/
def mkCell (offerDays orderDays : List String) (today : Nat) (fromDate : YMD) (n : Nat) :
    MonthDay :=
  { day := pad2 (toYMD n).day
    date := dateKey n
    today := n == today
    offer := offerDays.contains (dateKey n)
    order := orderDays.contains (dateKey n)
    isCurrentMonth := isSameMonth n fromDate }

/-- Day numbers enumerated by the grid loop: `firstMonday` up to `lastSunday`
inclusive, one day at a time (`day = addDays(day, 1)`). -/
def gridRange (fromDate : YMD) : List Nat :=
  let monthStart := startOfMonth fromDate
  let monthEnd := endOfMonth fromDate
  let firstMonday := startOfWeekMon monthStart
  let lastSunday := endOfWeekMon monthEnd
  (List.range (lastSunday + 1 - firstMonday)).map (fun i => firstMonday + i)

/-- The `days` array built by `MonthView`'s loop. -/
def buildDays (fromDate : YMD) (offerDays orderDays : List String) (today : Nat) :
    List MonthDay :=
  (gridRange fromDate).map (mkCell offerDays orderDays today fromDate)

/-- `handleDayPress`: selects the pressed cell's date, but only for
in-month cells; otherwise the selection is left unchanged. -/
def handleDayPress (dayData : MonthDay) (selectedDate : Option String) : Option String :=
  if dayData.isCurrentMonth then some dayData.date else selectedDate

/-- Type tag of the component popup. -/
inductive PopupType
  | success
  | error
deriving DecidableEq

/-- The `popup` state of `MonthView`. -/
structure Popup where
  visible : Bool
  message : String
  type : PopupType
deriving DecidableEq

/-- The mutable state of the component (`useState` hooks). -/
structure ComponentState where
  width : Nat
  selectedDate : Option String
  popup : Popup
deriving DecidableEq

/-- The `showPopup` helper. -/
def showPopup (message : String) (type : PopupType) (s : ComponentState) : ComponentState :=
  { s with popup := { visible := true, message := message, type := type } }

/-- Closing the popup modal (the OK button / `onRequestClose`). -/
def dismissPopup (s : ComponentState) : ComponentState :=
  { s with popup := { s.popup with visible := false } }

/-- Result of the single `fetch` of `handleOrder`: a 2xx response with a JSON
body, a non-2xx response, or a transport-level failure. -/
inductive FetchOutcome
  | ok (body : String)
  | httpError (status : Nat)
  | networkError
deriving DecidableEq

/-- Whether a fetch outcome is a failed submission (non-2xx or transport). -/
def isFailure : FetchOutcome → Bool
  | FetchOutcome.ok _ => false
  | FetchOutcome.httpError _ => true
  | FetchOutcome.networkError => true

/-- A POST request issued by `handleOrder`. -/
structure OrderRequest where
  url : String
  date : String
deriving DecidableEq

/-- `handleOrder`: guarded on a selected date whose cell has an offer; issues
one POST and shows a success or error popup depending on the outcome.
Returns the new state together with the list of requests issued. -/
def handleOrder (days : List MonthDay) (outcome : FetchOutcome) (s : ComponentState) :
    ComponentState × List OrderRequest :=
  match s.selectedDate with
  | none => (s, [])
  | some selectedDate =>
    match days.find? (fun d => d.date == selectedDate) with
    | none => (s, [])
    | some selectedDay =>
      if selectedDay.offer then
        let req : OrderRequest := { url := "https://example.com/order", date := selectedDate }
        match outcome with
        | FetchOutcome.ok _ =>
          (showPopup ("Zamówienie zostało złożone pomyślnie!") PopupType.success s, [req])
        | FetchOutcome.httpError _ =>
          (showPopup ("Wystąpił błąd podczas składania zamówienia") PopupType.error s, [req])
        | FetchOutcome.networkError =>
          (showPopup ("Błąd połączenia. Sprawdź internet i spróbuj ponownie") PopupType.error s, [req])
      else (s, [])

/-- Polish standalone month names, the `LLLL` token of the `pl` locale. -/
def polishMonthName (m : Nat) : String :=
  (["styczeń", "luty", "marzec", "kwiecień", "maj", "czerwiec", "lipiec",
    "sierpień", "wrzesień", "październik", "listopad", "grudzień"]).getD (m - 1) ""

/-- Parse a `yyyy-MM-dd` DateKey back into numbers (`new Date(selectedDate)`). -/
def parseKey (k : String) : Nat × Nat × Nat :=
  match (k.splitOn ("-")).map String.toNat? with
  | [some y, some m, some d] => (y, m, d)
  | _ => (0, 0, 0)

/-- `format(new Date(selectedDate), "d LLLL yyyy", { locale: pl })`. -/
def polishLongDate (k : String) : String :=
  let p := parseKey k
  toString p.2.2 ++ " " ++ polishMonthName p.2.1 ++ " " ++ toString p.1

/-- Return value of `getSelectedDayInfo`. -/
structure SelectedDayInfo where
  text : String
  showButton : Bool
  isAvailable : Bool
deriving DecidableEq

/-- `getSelectedDayInfo`: `null` without a selection, otherwise the banner
text plus `isAvailable = selectedDay?.offer || false`. -/
def getSelectedDayInfo (selectedDate : Option String) (days : List MonthDay) :
    Option SelectedDayInfo :=
  match selectedDate with
  | none => none
  | some k =>
    let selectedDay := days.find? (fun d => d.date == k)
    let formattedDate := polishLongDate k
    some { text := "Wybrana data: " ++ formattedDate
           showButton := true
           isAvailable := (selectedDay.map (fun d => d.offer)).getD false }

/-- Orderability as rendered: the order button is active iff
`selectedDayInfo` exists and `selectedDayInfo.isAvailable` holds. -/
def isOrderable (selectedDate : Option String) (days : List MonthDay) : Bool :=
  match getSelectedDayInfo selectedDate days with
  | none => false
  | some info => info.isAvailable

/-- `handlePreviousMonth`: emits `onMonthChange(subMonths(from, 1))`,
touching no component state. -/
def handlePreviousMonth (fromDate : YMD) (s : ComponentState) :
    ComponentState × List YMD :=
  (s, [subMonthsOne fromDate])

/-- `handleNextMonth`: emits `onMonthChange(addMonths(from, 1))`,
touching no component state. -/
def handleNextMonth (fromDate : YMD) (s : ComponentState) :
    ComponentState × List YMD :=
  (s, [addMonthsOne fromDate])

/-!  Arithmetic facts about the calendar embedding. -/

theorem isLeapYear_iff (y : Nat) :
    isLeapYear y = true ↔ (y % 4 = 0 ∧ y % 100 ≠ 0) ∨ y % 400 = 0 := by
  unfold isLeapYear
  simp [Bool.and_eq_true, Bool.or_eq_true]

theorem daysInYear_eq (y : Nat) :
    daysInYear y = if (y % 4 = 0 ∧ y % 100 ≠ 0) ∨ y % 400 = 0 then 366 else 365 := by
  unfold daysInYear
  by_cases h : (y % 4 = 0 ∧ y % 100 ≠ 0) ∨ y % 400 = 0
  · rw [if_pos h, if_pos ((isLeapYear_iff y).mpr h)]
  · rw [if_neg h, if_neg]
    intro hc
    exact h ((isLeapYear_iff y).mp hc)

theorem daysInYear_ge (y : Nat) : 365 ≤ daysInYear y := by
  rw [daysInYear_eq]; split <;> omega

theorem daysInMonth_pos (y m : Nat) : 1 ≤ daysInMonth y m := by
  unfold daysInMonth
  split
  · split <;> omega
  · split <;> omega

set_option maxHeartbeats 1000000 in
theorem daysUpTo_succ (y : Nat) : daysUpTo (y + 1) = daysUpTo y + daysInYear (y + 1) := by
  rw [daysInYear_eq]
  unfold daysUpTo
  split <;> omega

theorem daysUpTo_mono {a b : Nat} (h : a ≤ b) : daysUpTo a ≤ daysUpTo b := by
  have h4 := Nat.div_le_div_right (c := 4) h
  have h400 := Nat.div_le_div_right (c := 400) h
  have h100 : a / 100 ≤ b / 100 := Nat.div_le_div_right h
  unfold daysUpTo; omega

theorem daysUpTo_le (y : Nat) : daysUpTo y ≤ 366 * y := by
  unfold daysUpTo; omega

theorem monthsUpTo_succ (y m : Nat) :
    monthsUpTo y (m + 1) = monthsUpTo y m + daysInMonth y (m + 1) := rfl

theorem monthsUpTo_mono (y : Nat) {a b : Nat} (h : a ≤ b) :
    monthsUpTo y a ≤ monthsUpTo y b := by
  induction h with
  | refl => exact Nat.le_refl _
  | @step b h ih =>
    simp only [Nat.succ_eq_add_one]
    have hp := daysInMonth_pos y (b + 1)
    have hs := monthsUpTo_succ y b
    omega

theorem monthsUpTo_strict (y : Nat) {a b : Nat} (h : a < b) :
    monthsUpTo y a < monthsUpTo y b := by
  have h1 : monthsUpTo y (a + 1) = monthsUpTo y a + daysInMonth y (a + 1) := monthsUpTo_succ y a
  have h2 : monthsUpTo y (a + 1) ≤ monthsUpTo y b := monthsUpTo_mono y (by omega)
  have := daysInMonth_pos y (a + 1)
  omega

theorem monthsUpTo_twelve (y : Nat) : monthsUpTo y 12 = daysInYear y := by
  have h : isLeapYear y = true ∨ isLeapYear y = false := by cases isLeapYear y <;> simp
  rcases h with h | h <;> simp [monthsUpTo, daysInMonth, daysInYear, h]

theorem findYear_spec : ∀ (fuel y n : Nat), 1 ≤ y → n < 365 * fuel →
    y ≤ (findYear fuel y n).1 ∧
    (findYear fuel y n).2 < daysInYear (findYear fuel y n).1 ∧
    daysUpTo ((findYear fuel y n).1 - 1) + (findYear fuel y n).2 = daysUpTo (y - 1) + n := by
  intro fuel
  induction fuel with
  | zero => intro y n hy h; omega
  | succ f ih =>
    intro y n hy h
    by_cases hlt : n < daysInYear y
    · rw [show findYear (f + 1) y n = (y, n) from by simp [findYear, hlt]]
      exact ⟨Nat.le_refl y, hlt, rfl⟩
    · simp only [findYear, if_neg hlt]
      have h365 := daysInYear_ge y
      have hrec := ih (y + 1) (n - daysInYear y) (by omega) (by omega)
      have hup : daysUpTo y = daysUpTo (y - 1) + daysInYear y := by
        have := daysUpTo_succ (y - 1)
        have hy1 : y - 1 + 1 = y := by omega
        rw [hy1] at this
        exact this
      refine ⟨by omega, hrec.2.1, ?_⟩
      have he := hrec.2.2
      simp only [Nat.add_sub_cancel] at he
      omega

theorem findMonth_spec (y : Nat) : ∀ (fuel m r : Nat), 1 ≤ m →
    monthsUpTo y (m - 1) + r < monthsUpTo y (m + fuel - 1) →
    m ≤ (findMonth y fuel m r).1 ∧
    (findMonth y fuel m r).1 ≤ m + fuel - 1 ∧
    (findMonth y fuel m r).2 < daysInMonth y (findMonth y fuel m r).1 ∧
    monthsUpTo y ((findMonth y fuel m r).1 - 1) + (findMonth y fuel m r).2
      = monthsUpTo y (m - 1) + r := by
  intro fuel
  induction fuel with
  | zero =>
    intro m r hm h
    simp only [Nat.add_zero] at h
    omega
  | succ f ih =>
    intro m r hm h
    by_cases hlt : r < daysInMonth y m
    · rw [show findMonth y (f + 1) m r = (m, r) from by simp [findMonth, hlt]]
      exact ⟨Nat.le_refl m, by omega, hlt, rfl⟩
    · simp only [findMonth, if_neg hlt]
      have hsm : monthsUpTo y m = monthsUpTo y (m - 1) + daysInMonth y m := by
        have := monthsUpTo_succ y (m - 1)
        have hm1 : m - 1 + 1 = m := by omega
        rw [hm1] at this
        exact this
      have hrec := ih (m + 1) (r - daysInMonth y m) (by omega) ?_
      · have hfix : m + 1 + f - 1 = m + (f + 1) - 1 := by omega
        rw [hfix] at hrec
        simp only [Nat.add_sub_cancel] at hrec
        refine ⟨by omega, hrec.2.1, hrec.2.2.1, ?_⟩
        have := hrec.2.2.2
        omega
      · simp only [Nat.add_sub_cancel]
        have hfix : m + 1 + f - 1 = m + (f + 1) - 1 := by omega
        rw [hfix]
        omega

/-- Round trip: `toYMD` produces a valid date whose `fromYMD` image is the
original day number. -/
theorem toYMD_spec (n : Nat) :
    ValidDate (toYMD n) ∧ fromYMD (toYMD n).year (toYMD n).month (toYMD n).day = n := by
  unfold toYMD
  set g := n / 366 + 1 with hg
  set r0 := n - daysUpTo (g - 1) with hr0
  have hbase : daysUpTo (g - 1) ≤ n := by
    have h1 : daysUpTo (g - 1) ≤ 366 * (g - 1) := daysUpTo_le (g - 1)
    have h2 : g - 1 = n / 366 := by omega
    have h3 : 366 * (n / 366) ≤ n := Nat.mul_div_le n 366
    omega
  have hy := findYear_spec (r0 + 1) g r0 (by omega) (by omega)
  set p := findYear (r0 + 1) g r0 with hp
  obtain ⟨hyle, hylt, hyeq⟩ := hy
  have hn : daysUpTo (p.1 - 1) + p.2 = n := by omega
  have hm := findMonth_spec p.1 12 1 p.2 (by omega) ?_
  · set q := findMonth p.1 12 1 p.2 with hq
    obtain ⟨hmle, hmub, hmlt, hmeq⟩ := hm
    have h0 : monthsUpTo p.1 (1 - 1) = 0 := rfl
    constructor
    · exact ⟨show 1 ≤ p.1 by omega, show 1 ≤ q.1 by omega, show q.1 ≤ 12 by omega,
        show 1 ≤ q.2 + 1 by omega, show q.2 + 1 ≤ daysInMonth p.1 q.1 by omega⟩
    · show fromYMD p.1 q.1 (q.2 + 1) = n
      unfold fromYMD
      omega
  · have h0 : monthsUpTo p.1 (1 - 1) = 0 := rfl
    have h12 : monthsUpTo p.1 (1 + 12 - 1) = daysInYear p.1 := monthsUpTo_twelve p.1
    omega

/-- For a valid date the day number lies in the half-open interval of its
year. -/
theorem fromYMD_bounds {y m d : Nat} (h : ValidDate ⟨y, m, d⟩) :
    daysUpTo (y - 1) ≤ fromYMD y m d ∧ fromYMD y m d < daysUpTo y := by
  obtain ⟨hy, hm1, hm12, hd1, hdm⟩ := h
  simp only at hy hm1 hm12 hd1 hdm
  constructor
  · unfold fromYMD; omega
  · have hsm : monthsUpTo y m = monthsUpTo y (m - 1) + daysInMonth y m := by
      have := monthsUpTo_succ y (m - 1)
      have hm1' : m - 1 + 1 = m := by omega
      rw [hm1'] at this
      exact this
    have hmono : monthsUpTo y m ≤ monthsUpTo y 12 := monthsUpTo_mono y (by omega)
    have h12 : monthsUpTo y 12 = daysInYear y := monthsUpTo_twelve y
    have hup : daysUpTo y = daysUpTo (y - 1) + daysInYear y := by
      have := daysUpTo_succ (y - 1)
      have hy1 : y - 1 + 1 = y := by omega
      rw [hy1] at this
      exact this
    unfold fromYMD
    omega

/-- Month interval bound: within a fixed year, a valid date's offset lies in
the half-open interval of its month. -/
theorem fromYMD_month_bounds {y m d : Nat} (h : ValidDate ⟨y, m, d⟩) :
    monthsUpTo y (m - 1) ≤ monthsUpTo y (m - 1) + (d - 1) ∧
    monthsUpTo y (m - 1) + (d - 1) < monthsUpTo y m := by
  obtain ⟨hy, hm1, hm12, hd1, hdm⟩ := h
  simp only at hm1 hm12 hd1 hdm
  have hsm : monthsUpTo y m = monthsUpTo y (m - 1) + daysInMonth y m := by
    have := monthsUpTo_succ y (m - 1)
    have hm1' : m - 1 + 1 = m := by omega
    rw [hm1'] at this
    exact this
  omega

/-- `fromYMD` is injective on valid dates. -/
theorem fromYMD_inj {y1 m1 d1 y2 m2 d2 : Nat}
    (h1 : ValidDate ⟨y1, m1, d1⟩) (h2 : ValidDate ⟨y2, m2, d2⟩)
    (heq : fromYMD y1 m1 d1 = fromYMD y2 m2 d2) :
    y1 = y2 ∧ m1 = m2 ∧ d1 = d2 := by
  have hb1 := fromYMD_bounds h1
  have hb2 := fromYMD_bounds h2
  have hyy : y1 = y2 := by
    by_contra hne
    rcases Nat.lt_or_ge y1 y2 with hlt | hge
    · have : daysUpTo y1 ≤ daysUpTo (y2 - 1) := daysUpTo_mono (by omega)
      omega
    · have hlt : y2 < y1 := by omega
      have : daysUpTo y2 ≤ daysUpTo (y1 - 1) := daysUpTo_mono (by omega)
      omega
  subst hyy
  have hoff : monthsUpTo y1 (m1 - 1) + (d1 - 1) = monthsUpTo y1 (m2 - 1) + (d2 - 1) := by
    unfold fromYMD at heq
    omega
  have hmb1 := fromYMD_month_bounds h1
  have hmb2 := fromYMD_month_bounds h2
  have hmm : m1 = m2 := by
    by_contra hne
    rcases Nat.lt_or_ge m1 m2 with hlt | hge
    · have : monthsUpTo y1 m1 ≤ monthsUpTo y1 (m2 - 1) := monthsUpTo_mono y1 (by omega)
      omega
    · have hlt : m2 < m1 := by omega
      have : monthsUpTo y1 m2 ≤ monthsUpTo y1 (m1 - 1) := monthsUpTo_mono y1 (by omega)
      omega
  subst hmm
  obtain ⟨_, _, _, hd11, _⟩ := h1
  obtain ⟨_, _, _, hd21, _⟩ := h2
  simp only at hd11 hd21
  exact ⟨rfl, rfl, by omega⟩

/-- Structure form of injectivity. -/
theorem fromYMD_inj' {dt1 dt2 : YMD} (h1 : ValidDate dt1) (h2 : ValidDate dt2)
    (heq : fromYMD dt1.year dt1.month dt1.day = fromYMD dt2.year dt2.month dt2.day) :
    dt1 = dt2 := by
  obtain ⟨a, b, c⟩ := dt1
  obtain ⟨a', b', c'⟩ := dt2
  obtain ⟨e1, e2, e3⟩ := fromYMD_inj h1 h2 heq
  simp [e1, e2, e3]

/-- Second round trip: `toYMD` inverts `fromYMD` on valid dates. -/
theorem toYMD_fromYMD {y m d : Nat} (h : ValidDate ⟨y, m, d⟩) :
    toYMD (fromYMD y m d) = ⟨y, m, d⟩ := by
  obtain ⟨hv, heq⟩ := toYMD_spec (fromYMD y m d)
  exact fromYMD_inj' hv h (by simpa using heq)

example : fromYMD 2024 3 1 = 738945 := by decide
example : getDayOfWeek (fromYMD 2024 3 1) = 5 := by decide
example : toYMD 738945 = ⟨2024, 3, 1⟩ := by decide
example : dateKey (fromYMD 2024 3 10) = "2024-03-10" := by decide
example : (gridRange ⟨2024, 3, 1⟩).length = 35 := by decide

/-!  Structural lemmas about the grid. -/

theorem endOfMonth_eq (dt : YMD) :
    endOfMonth dt = startOfMonth dt + (daysInMonth dt.year dt.month - 1) := by
  unfold endOfMonth startOfMonth fromYMD
  omega

theorem startOfWeekMon_eq (n : Nat) : startOfWeekMon n = n - n % 7 := by
  unfold startOfWeekMon getDayOfWeek
  omega

theorem endOfWeekMon_eq (n : Nat) : endOfWeekMon n = n + (6 - n % 7) := by
  unfold endOfWeekMon getDayOfWeek
  omega

theorem gridRange_def (dt : YMD) :
    gridRange dt =
      (List.range (endOfWeekMon (endOfMonth dt) + 1 - startOfWeekMon (startOfMonth dt))).map
        (fun i => startOfWeekMon (startOfMonth dt) + i) := rfl

theorem gridRange_len (dt : YMD) :
    (gridRange dt).length
      = endOfWeekMon (endOfMonth dt) + 1 - startOfWeekMon (startOfMonth dt) := by
  rw [gridRange_def, List.length_map, List.length_range]

theorem gridRange_getElem (dt : YMD) (i : Nat)
    (h : i < endOfWeekMon (endOfMonth dt) + 1 - startOfWeekMon (startOfMonth dt)) :
    (gridRange dt)[i]? = some (startOfWeekMon (startOfMonth dt) + i) := by
  rw [gridRange_def, List.getElem?_map, List.getElem?_range h, Option.map_some']

theorem mem_gridRange (dt : YMD) (n : Nat) :
    n ∈ gridRange dt ↔
      startOfWeekMon (startOfMonth dt) ≤ n ∧ n ≤ endOfWeekMon (endOfMonth dt) := by
  have hdim := daysInMonth_pos dt.year dt.month
  have hme := endOfMonth_eq dt
  have hs := startOfWeekMon_eq (startOfMonth dt)
  have he := endOfWeekMon_eq (endOfMonth dt)
  rw [gridRange_def]
  simp only [List.mem_map, List.mem_range]
  constructor
  · rintro ⟨i, hi, rfl⟩
    omega
  · intro h
    exact ⟨n - startOfWeekMon (startOfMonth dt), by omega, by omega⟩

theorem gridRange_nodup (dt : YMD) : (gridRange dt).Nodup := by
  rw [gridRange_def]
  exact List.Nodup.map (fun a b h => by omega) (List.nodup_range _)

theorem gridRange_count_eq_one (dt : YMD) {n : Nat} (h : n ∈ gridRange dt) :
    (gridRange dt).count n = 1 :=
  List.count_eq_one_of_mem (gridRange_nodup dt) h

/-- Characterization of `isSameMonth` over day numbers: a day number lies in
the reference month exactly when it lies between the month's first and last
day numbers. -/
theorem isSameMonth_iff (dt : YMD) (hv : ValidDate dt) (n : Nat) :
    isSameMonth n dt = true ↔ startOfMonth dt ≤ n ∧ n ≤ endOfMonth dt := by
  obtain ⟨hy, hm1, hm12, hd1, hdm⟩ := hv
  have hme := endOfMonth_eq dt
  constructor
  · intro h
    unfold isSameMonth at h
    simp only [Bool.and_eq_true, beq_iff_eq] at h
    obtain ⟨hyy, hmm⟩ := h
    obtain ⟨hval, heq⟩ := toYMD_spec n
    obtain ⟨_, _, _, hdd1, hddm⟩ := hval
    rw [hyy, hmm] at heq hddm
    unfold startOfMonth endOfMonth fromYMD at hme ⊢
    unfold fromYMD at heq
    omega
  · intro h
    obtain ⟨hge, hle⟩ := h
    have hdim := daysInMonth_pos dt.year dt.month
    have hvd : ValidDate ⟨dt.year, dt.month, n - startOfMonth dt + 1⟩ :=
      ⟨hy, hm1, hm12, show 1 ≤ n - startOfMonth dt + 1 by omega,
        show n - startOfMonth dt + 1 ≤ daysInMonth dt.year dt.month by omega⟩
    have hfe : fromYMD dt.year dt.month (n - startOfMonth dt + 1) = n := by
      unfold startOfMonth fromYMD at hge ⊢
      omega
    have ht : toYMD n = ⟨dt.year, dt.month, n - startOfMonth dt + 1⟩ := by
      conv_lhs => rw [← hfe]
      exact toYMD_fromYMD hvd
    unfold isSameMonth
    rw [ht]
    simp

/-!  Claim theorems. -/

/-- C1: for every reference date, the grid produced by the month-grid builder
has a cell count that is a multiple of 7, its first cell falls on a Monday
(`getDay = 1`), its last cell falls on a Sunday (`getDay = 0`), and the cells
are consecutive calendar dates in strictly increasing order with no gaps. -/
theorem grid_weeks_aligned (fromDate : YMD) (offerDays orderDays : List String) (today : Nat) :
    (buildDays fromDate offerDays orderDays today).length % 7 = 0 ∧
    buildDays fromDate offerDays orderDays today
      = (gridRange fromDate).map (mkCell offerDays orderDays today fromDate) ∧
    (∃ a, (gridRange fromDate).head? = some a ∧ getDayOfWeek a = 1) ∧
    (∃ b, (gridRange fromDate).getLast? = some b ∧ getDayOfWeek b = 0) ∧
    (∀ i, i + 1 < (gridRange fromDate).length →
      (gridRange fromDate)[i + 1]? = ((gridRange fromDate)[i]?).map (fun x => x + 1)) := by
  have hdim := daysInMonth_pos fromDate.year fromDate.month
  have hme := endOfMonth_eq fromDate
  have hs := startOfWeekMon_eq (startOfMonth fromDate)
  have he := endOfWeekMon_eq (endOfMonth fromDate)
  have hL := gridRange_len fromDate
  have hlen : (buildDays fromDate offerDays orderDays today).length
      = (gridRange fromDate).length := by
    unfold buildDays
    rw [List.length_map]
  refine ⟨by omega, rfl, ?_, ?_, ?_⟩
  · refine ⟨startOfWeekMon (startOfMonth fromDate), ?_, ?_⟩
    · rw [List.head?_eq_getElem?, gridRange_getElem fromDate 0 (by omega)]
      rw [Nat.add_zero]
    · unfold getDayOfWeek
      omega
  · refine ⟨endOfWeekMon (endOfMonth fromDate), ?_, ?_⟩
    · rw [List.getLast?_eq_getElem?, hL, gridRange_getElem fromDate _ (by omega)]
      congr 1
      omega
    · unfold getDayOfWeek
      omega
  · intro i hi
    rw [hL] at hi
    rw [gridRange_getElem fromDate (i + 1) (by omega), gridRange_getElem fromDate i (by omega),
      Option.map_some']
    congr 1

/-- C1 witness at the March 2024 reference date. -/
theorem grid_weeks_aligned_witness :
    (buildDays ⟨2024, 3, 1⟩ [] [] 0).length % 7 = 0 ∧
    0 + 1 < (gridRange ⟨2024, 3, 1⟩).length ∧
    (gridRange ⟨2024, 3, 1⟩)[0 + 1]? = ((gridRange ⟨2024, 3, 1⟩)[0]?).map (fun x => x + 1) :=
  ⟨(grid_weeks_aligned ⟨2024, 3, 1⟩ [] [] 0).1, by decide,
    (grid_weeks_aligned ⟨2024, 3, 1⟩ [] [] 0).2.2.2.2 0 (by decide)⟩

/-- C2: for every valid reference date, every date from the first through the
last day of the reference month appears exactly once among the grid's day
numbers, its cell carries `isCurrentMonth = true`, and a cell built for any
date outside that interval carries `isCurrentMonth = false`. -/
theorem current_month_cells (fromDate : YMD) (offerDays orderDays : List String) (today : Nat)
    (hv : ValidDate fromDate) :
    buildDays fromDate offerDays orderDays today
      = (gridRange fromDate).map (mkCell offerDays orderDays today fromDate) ∧
    (∀ n, startOfMonth fromDate ≤ n → n ≤ endOfMonth fromDate →
      (gridRange fromDate).count n = 1 ∧
      (mkCell offerDays orderDays today fromDate n).isCurrentMonth = true) ∧
    (∀ n, (mkCell offerDays orderDays today fromDate n).isCurrentMonth = true →
      startOfMonth fromDate ≤ n ∧ n ≤ endOfMonth fromDate) := by
  refine ⟨rfl, ?_, ?_⟩
  · intro n h1 h2
    have hmem : n ∈ gridRange fromDate := by
      rw [mem_gridRange]
      have hdim := daysInMonth_pos fromDate.year fromDate.month
      have hme := endOfMonth_eq fromDate
      have hs := startOfWeekMon_eq (startOfMonth fromDate)
      have he := endOfWeekMon_eq (endOfMonth fromDate)
      omega
    refine ⟨gridRange_count_eq_one fromDate hmem, ?_⟩
    show isSameMonth n fromDate = true
    rw [isSameMonth_iff fromDate hv n]
    exact ⟨h1, h2⟩
  · intro n h
    have h' : isSameMonth n fromDate = true := h
    rw [isSameMonth_iff fromDate hv n] at h'
    exact h'

/-- C2 witness at the March 2024 reference date and 2024-03-15. -/
theorem current_month_cells_witness :
    ValidDate (⟨2024, 3, 1⟩ : YMD) ∧
    startOfMonth ⟨2024, 3, 1⟩ ≤ fromYMD 2024 3 15 ∧
    fromYMD 2024 3 15 ≤ endOfMonth ⟨2024, 3, 1⟩ ∧
    ((gridRange ⟨2024, 3, 1⟩).count (fromYMD 2024 3 15) = 1 ∧
      (mkCell [] [] 0 ⟨2024, 3, 1⟩ (fromYMD 2024 3 15)).isCurrentMonth = true) :=
  ⟨by decide, by decide, by decide,
    (current_month_cells ⟨2024, 3, 1⟩ [] [] 0 (by decide)).2.1 (fromYMD 2024 3 15)
      (by decide) (by decide)⟩

/-- C3: every cell's `offer` flag is exactly list membership of its DateKey
in the offer-key list, and `order` likewise for the order-key list; with
`offerDays = ["2024-03-10"]` exactly the cell whose DateKey is `2024-03-10`
carries `offer = true`. -/
theorem offer_order_flags (fromDate : YMD) (offerDays orderDays : List String) (today : Nat) :
    (∀ cell ∈ buildDays fromDate offerDays orderDays today,
      cell.offer = offerDays.contains cell.date ∧ cell.order = orderDays.contains cell.date) ∧
    (∀ cell ∈ buildDays ⟨2024, 3, 1⟩ (["2024-03-10"]) [] 0,
      cell.offer = true ↔ cell.date = "2024-03-10") ∧
    (buildDays ⟨2024, 3, 1⟩ (["2024-03-10"]) [] 0).countP (fun c => c.offer) = 1 := by
  refine ⟨?_, by decide, by decide⟩
  intro cell hc
  unfold buildDays at hc
  obtain ⟨n, hn, rfl⟩ := List.mem_map.mp hc
  exact ⟨rfl, rfl⟩

/-- C3 witness: the cell built for 2024-03-10 inside the March 2024 grid. -/
theorem offer_order_flags_witness :
    mkCell (["2024-03-10"]) [] 0 ⟨2024, 3, 1⟩ (fromYMD 2024 3 10)
        ∈ buildDays ⟨2024, 3, 1⟩ (["2024-03-10"]) [] 0 ∧
    ((mkCell (["2024-03-10"]) [] 0 ⟨2024, 3, 1⟩ (fromYMD 2024 3 10)).offer
        = (["2024-03-10"]).contains
            (mkCell (["2024-03-10"]) [] 0 ⟨2024, 3, 1⟩ (fromYMD 2024 3 10)).date ∧
      (mkCell (["2024-03-10"]) [] 0 ⟨2024, 3, 1⟩ (fromYMD 2024 3 10)).order
        = ([] : List String).contains
            (mkCell (["2024-03-10"]) [] 0 ⟨2024, 3, 1⟩ (fromYMD 2024 3 10)).date) :=
  ⟨by decide,
    (offer_order_flags ⟨2024, 3, 1⟩ (["2024-03-10"]) [] 0).1
      (mkCell (["2024-03-10"]) [] 0 ⟨2024, 3, 1⟩ (fromYMD 2024 3 10)) (by decide)⟩

/-- C6: for the reference date 2024-03-01 the grid starts at 2024-02-26
(a Monday), ends at 2024-03-31 (a Sunday), and contains exactly 35 cells. -/
theorem march2024_example (offerDays orderDays : List String) (today : Nat) :
    (buildDays ⟨2024, 3, 1⟩ offerDays orderDays today).length = 35 ∧
    (gridRange ⟨2024, 3, 1⟩).head? = some (fromYMD 2024 2 26) ∧
    (gridRange ⟨2024, 3, 1⟩).getLast? = some (fromYMD 2024 3 31) ∧
    getDayOfWeek (fromYMD 2024 2 26) = 1 ∧
    getDayOfWeek (fromYMD 2024 3 31) = 0 ∧
    ((buildDays ⟨2024, 3, 1⟩ [] [] 0).head?).map (fun c => c.date) = some ("2024-02-26") ∧
    ((buildDays ⟨2024, 3, 1⟩ [] [] 0).getLast?).map (fun c => c.date) = some ("2024-03-31") := by
  refine ⟨?_, by decide, by decide, by decide, by decide, by decide, by decide⟩
  unfold buildDays
  rw [List.length_map]
  decide

/-- C8: the built grid depends only on the year and month of the reference
date: two reference dates in the same calendar month yield identical grids
for the same offer/order keys and the same today. -/
theorem grid_depends_only_on_month (a b : YMD) (offerDays orderDays : List String)
    (today : Nat) (hy : a.year = b.year) (hm : a.month = b.month) :
    buildDays a offerDays orderDays today = buildDays b offerDays orderDays today := by
  obtain ⟨y1, m1, d1⟩ := a
  obtain ⟨y2, m2, d2⟩ := b
  simp only at hy hm
  subst hy
  subst hm
  rfl

/-- C8 witness: 2024-03-01 and 2024-03-15 give the same grid. -/
theorem grid_depends_only_on_month_witness :
    (⟨2024, 3, 1⟩ : YMD).year = (⟨2024, 3, 15⟩ : YMD).year ∧
    (⟨2024, 3, 1⟩ : YMD).month = (⟨2024, 3, 15⟩ : YMD).month ∧
    buildDays ⟨2024, 3, 1⟩ [] [] 0 = buildDays ⟨2024, 3, 15⟩ [] [] 0 :=
  ⟨rfl, rfl, grid_depends_only_on_month ⟨2024, 3, 1⟩ ⟨2024, 3, 15⟩ [] [] 0 rfl rfl⟩

/-- C4: pressing an in-month cell selects its date key from every starting
selection state; pressing an out-of-month cell leaves the selection
unchanged (a no-op, not an error). -/
theorem select_transition (selectedDate : Option String) (dayData : MonthDay) :
    (dayData.isCurrentMonth = true →
      handleDayPress dayData selectedDate = some dayData.date) ∧
    (dayData.isCurrentMonth = false →
      handleDayPress dayData selectedDate = selectedDate) := by
  unfold handleDayPress
  constructor
  · intro h
    rw [h]
    simp
  · intro h
    rw [h]
    simp

/-- C4 witness: one in-month press, one out-of-month press. -/
theorem select_transition_witness :
    ((⟨"10", "2024-03-10", false, true, false, true⟩ : MonthDay).isCurrentMonth = true ∧
      handleDayPress ⟨"10", "2024-03-10", false, true, false, true⟩ none
        = some ("2024-03-10")) ∧
    ((⟨"25", "2024-02-25", false, false, false, false⟩ : MonthDay).isCurrentMonth = false ∧
      handleDayPress ⟨"25", "2024-02-25", false, false, false, false⟩ (some ("2024-03-05"))
        = some ("2024-03-05")) :=
  ⟨⟨rfl, (select_transition none ⟨"10", "2024-03-10", false, true, false, true⟩).1 rfl⟩,
    ⟨rfl, (select_transition (some ("2024-03-05"))
      ⟨"25", "2024-02-25", false, false, false, false⟩).2 rfl⟩⟩

/-- C5: the rendered orderability is true exactly when a date is selected and
the grid cell found for that key has `offer = true`; in particular it is
false with no selection and false when the found cell has no offer. -/
theorem isOrderable_iff (selectedDate : Option String) (days : List MonthDay) :
    isOrderable selectedDate days = true ↔
      ∃ k cell, selectedDate = some k ∧
        days.find? (fun d => d.date == k) = some cell ∧ cell.offer = true := by
  cases selectedDate with
  | none => simp [isOrderable, getSelectedDayInfo]
  | some k =>
    simp only [isOrderable, getSelectedDayInfo]
    cases hf : days.find? (fun d => d.date == k) with
    | none => simp [hf]
    | some cell => simp [hf]

/-- C7: a failed submission attempt (non-2xx status or transport error) only
sets a dismissible error popup; the selection, the width, and the rest of the
state survive, and exactly one request was issued (no retry). -/
theorem failed_submission (days : List MonthDay) (s : ComponentState)
    (outcome : FetchOutcome) (k : String) (cell : MonthDay)
    (hsel : s.selectedDate = some k)
    (hfind : days.find? (fun d => d.date == k) = some cell)
    (hoffer : cell.offer = true)
    (hfail : isFailure outcome = true) :
    (handleOrder days outcome s).1.selectedDate = s.selectedDate ∧
    (handleOrder days outcome s).1.width = s.width ∧
    (handleOrder days outcome s).1.popup.visible = true ∧
    (handleOrder days outcome s).1.popup.type = PopupType.error ∧
    (handleOrder days outcome s).2 = [{ url := "https://example.com/order", date := k }] ∧
    (dismissPopup (handleOrder days outcome s).1).selectedDate = s.selectedDate ∧
    (dismissPopup (handleOrder days outcome s).1).popup.visible = false := by
  cases outcome with
  | ok body => simp [isFailure] at hfail
  | httpError status =>
    simp [handleOrder, hsel, hfind, hoffer, showPopup, dismissPopup]
  | networkError =>
    simp [handleOrder, hsel, hfind, hoffer, showPopup, dismissPopup]

/-- C7 witness: a network error on a selected offer day. -/
theorem failed_submission_witness :
    (⟨0, some ("2024-03-10"), ⟨false, "", PopupType.success⟩⟩
        : ComponentState).selectedDate = some ("2024-03-10") ∧
    ([⟨"10", "2024-03-10", false, true, false, true⟩] : List MonthDay).find?
        (fun d => d.date == "2024-03-10")
        = some ⟨"10", "2024-03-10", false, true, false, true⟩ ∧
    (⟨"10", "2024-03-10", false, true, false, true⟩ : MonthDay).offer = true ∧
    isFailure FetchOutcome.networkError = true ∧
    (handleOrder [⟨"10", "2024-03-10", false, true, false, true⟩] FetchOutcome.networkError
        ⟨0, some ("2024-03-10"), ⟨false, "", PopupType.success⟩⟩).1.selectedDate
      = (⟨0, some ("2024-03-10"), ⟨false, "", PopupType.success⟩⟩
        : ComponentState).selectedDate :=
  ⟨rfl, by decide, rfl, rfl,
    (failed_submission [⟨"10", "2024-03-10", false, true, false, true⟩]
      ⟨0, some ("2024-03-10"), ⟨false, "", PopupType.success⟩⟩ FetchOutcome.networkError
      "2024-03-10" ⟨"10", "2024-03-10", false, true, false, true⟩
      rfl (by decide) rfl rfl).1⟩

/-- C9: month navigation emits exactly one `onMonthChange` carrying the
reference date shifted by one calendar month in the pressed direction, and
leaves the component state, in particular the selection, untouched. -/
theorem month_navigation (fromDate : YMD) (s : ComponentState) (hv : ValidDate fromDate) :
    (handleNextMonth fromDate s).1 = s ∧
    (handlePreviousMonth fromDate s).1 = s ∧
    (handleNextMonth fromDate s).1.selectedDate = s.selectedDate ∧
    (handlePreviousMonth fromDate s).1.selectedDate = s.selectedDate ∧
    (handleNextMonth fromDate s).2 = [addMonthsOne fromDate] ∧
    (handlePreviousMonth fromDate s).2 = [subMonthsOne fromDate] ∧
    12 * (addMonthsOne fromDate).year + (addMonthsOne fromDate).month
      = 12 * fromDate.year + fromDate.month + 1 ∧
    12 * (subMonthsOne fromDate).year + (subMonthsOne fromDate).month + 1
      = 12 * fromDate.year + fromDate.month := by
  obtain ⟨hy, hm1, hm12, _, _⟩ := hv
  refine ⟨rfl, rfl, rfl, rfl, rfl, rfl, ?_, ?_⟩
  · show 12 * (if fromDate.month == 12 then fromDate.year + 1 else fromDate.year)
        + (if fromDate.month == 12 then 1 else fromDate.month + 1)
      = 12 * fromDate.year + fromDate.month + 1
    by_cases h : fromDate.month = 12
    · simp only [h]
      norm_num
      omega
    · have hb : (fromDate.month == 12) = false := by
        simp [h]
      simp [hb]
      omega
  · show 12 * (if fromDate.month == 1 then fromDate.year - 1 else fromDate.year)
        + (if fromDate.month == 1 then 12 else fromDate.month - 1) + 1
      = 12 * fromDate.year + fromDate.month
    by_cases h : fromDate.month = 1
    · simp only [h]
      norm_num
      omega
    · have hb : (fromDate.month == 1) = false := by
        simp [h]
      simp [hb]
      omega

/-- C9 witness at the March 2024 reference date. -/
theorem month_navigation_witness :
    ValidDate (⟨2024, 3, 1⟩ : YMD) ∧
    (handleNextMonth ⟨2024, 3, 1⟩ ⟨0, none, ⟨false, "", PopupType.success⟩⟩).1
      = ⟨0, none, ⟨false, "", PopupType.success⟩⟩ ∧
    12 * (addMonthsOne ⟨2024, 3, 1⟩).year + (addMonthsOne ⟨2024, 3, 1⟩).month
      = 12 * (⟨2024, 3, 1⟩ : YMD).year + (⟨2024, 3, 1⟩ : YMD).month + 1 :=
  ⟨by decide,
    (month_navigation ⟨2024, 3, 1⟩ ⟨0, none, ⟨false, "", PopupType.success⟩⟩ (by decide)).1,
    (month_navigation ⟨2024, 3, 1⟩ ⟨0, none, ⟨false, "", PopupType.success⟩⟩
      (by decide)).2.2.2.2.2.2.1⟩

/-- C10: without a selected date, or with a selected date whose cell has no
offer (or no cell at all), `handleOrder` is a silent no-op: no request is
issued, no popup is shown, no state changes. -/
theorem handler_self_guard (days : List MonthDay) (outcome : FetchOutcome)
    (s : ComponentState)
    (h : s.selectedDate = none ∨
      ∃ k, s.selectedDate = some k ∧
        ∀ cell, days.find? (fun d => d.date == k) = some cell → cell.offer = false) :
    handleOrder days outcome s = (s, []) := by
  rcases h with h | ⟨k, hk, hcell⟩
  · simp [handleOrder, h]
  · cases hf : days.find? (fun d => d.date == k) with
    | none => simp [handleOrder, hk, hf]
    | some cell =>
      have hco := hcell cell hf
      simp [handleOrder, hk, hf, hco]

/-- C10 witness: no selection, and a selection on a no-offer day. -/
theorem handler_self_guard_witness :
    handleOrder [] FetchOutcome.networkError ⟨0, none, ⟨false, "", PopupType.success⟩⟩
      = (⟨0, none, ⟨false, "", PopupType.success⟩⟩, []) ∧
    handleOrder [⟨"25", "2024-03-25", false, false, false, true⟩] (FetchOutcome.ok (""))
        ⟨7, some ("2024-03-25"), ⟨false, "", PopupType.success⟩⟩
      = (⟨7, some ("2024-03-25"), ⟨false, "", PopupType.success⟩⟩, []) :=
  ⟨handler_self_guard [] FetchOutcome.networkError
      ⟨0, none, ⟨false, "", PopupType.success⟩⟩ (Or.inl rfl),
    handler_self_guard [⟨"25", "2024-03-25", false, false, false, true⟩]
      (FetchOutcome.ok ("")) ⟨7, some ("2024-03-25"), ⟨false, "", PopupType.success⟩⟩
      (Or.inr ⟨"2024-03-25", rfl, by decide⟩)⟩

end Calendar
